import Mathlib

/-!
Verification of the "A Plus Charge" backend (`main.py`): a FastAPI service
exposing a diagnostics endpoint (`GET /test`), lead capture
(`POST /api/leads`) with best-effort auto-emails, and an ROI calculator
(`POST /api/roi`).

The embedding below translates the Python source into Lean:
* Python numbers (floats) are modelled as rationals `ℚ`; `round(x, 2)`
  becomes `round2`.
* Fallible Python operations (division by zero, HTTP requests, the
  document-store write) are modelled in `Except String`, with `try/except`
  blocks translated as explicit matches on the `Except` value.
* Environment variables are a record of `Option String` fields; Python
  truthiness (`if s:`) is `truthy`.
* External collaborators (the document store, the network) are oracles
  passed in as parameters, so theorems quantify over every outcome.
-/

/-- Python truthiness of an optional string: `None` and `""` are falsy. -/
def truthy : Option String → Bool
  | none => false
  | some s => !s.isEmpty

/-- Process environment: every variable `main.py` reads via `os.getenv`. -/
structure Env where
  RESEND_API_KEY : Option String
  MAILGUN_API_KEY : Option String
  MAILGUN_DOMAIN : Option String
  FROM_EMAIL : Option String
  NOTIFY_EMAIL : Option String
  DATABASE_URL : Option String
deriving DecidableEq, Repr

/-- An environment with no variable set. -/
def Env.empty : Env := ⟨none, none, none, none, none, none⟩

/-! ## ROI calculator (`calculate_roi`, main.py lines 157-188) -/

/-- Python's `round(x, 2)`: round to two decimal places. -/
def round2 (x : ℚ) : ℚ := (round (x * 100) : ℤ) / 100

/-- Request model `ROICalcIn` (main.py lines 158-164). -/
structure ROICalcIn where
  daily_sessions : ℚ
  avg_kwh_per_session : ℚ
  tariff_per_kwh : ℚ
  cost_per_kwh : ℚ
  station_cost : ℚ
  opex_per_month : ℚ := 0
deriving DecidableEq, Repr

/-- Response model `ROICalcOut` (main.py lines 166-170);
`payback_months` is `Optional[float]`. -/
structure ROICalcOut where
  monthly_revenue : ℚ
  monthly_cost : ℚ
  monthly_profit : ℚ
  payback_months : Option ℚ
deriving DecidableEq, Repr

instance {ε α : Type} [DecidableEq ε] [DecidableEq α] :
    DecidableEq (Except ε α) := fun x y =>
  match x, y with
  | .ok a, .ok b => decidable_of_iff (a = b) (by simp)
  | .error a, .error b => decidable_of_iff (a = b) (by simp)
  | .ok _, .error _ => isFalse (by simp)
  | .error _, .ok _ => isFalse (by simp)

/-- Python float division: raises `ZeroDivisionError` on a zero divisor. -/
def pydiv (a b : ℚ) : Except String ℚ :=
  if b = 0 then .error "float division by zero" else .ok (a / b)

/-- Handler of `POST /api/roi` (main.py lines 172-188), with the division
modelled as fallible exactly where the source performs it. -/
def calculate_roi (payload : ROICalcIn) : Except String ROICalcOut := do
  let sessions_per_month := payload.daily_sessions * 30
  let energy_sold := sessions_per_month * payload.avg_kwh_per_session
  let revenue := energy_sold * payload.tariff_per_kwh
  let energy_cost := energy_sold * payload.cost_per_kwh
  let monthly_cost := energy_cost + payload.opex_per_month
  let profit := revenue - monthly_cost
  let payback_months ←
    if profit > 0 ∧ payload.station_cost > 0 then
      (pydiv payload.station_cost profit).map (fun q => some (round2 q))
    else
      pure none
  return { monthly_revenue := round2 revenue
           monthly_cost := round2 monthly_cost
           monthly_profit := round2 profit
           payback_months := payback_months }

/-- The unrounded monthly profit of an ROI input, as computed by the handler. -/
def roiProfit (p : ROICalcIn) : ℚ :=
  p.daily_sessions * 30 * p.avg_kwh_per_session * p.tariff_per_kwh -
    (p.daily_sessions * 30 * p.avg_kwh_per_session * p.cost_per_kwh +
      p.opex_per_month)

/-! ## Notification dispatcher (`send_auto_email`, main.py lines 114-154) -/

/-- One outbound HTTP request as issued by `requests.post`: the URL and
the email payload (sender header, recipient, subject, HTML body). -/
structure HttpCall where
  url : String
  from_header : String
  to_email : String
  subject : String
  html : String
deriving DecidableEq, Repr

/-- Outcome of one `requests.post` attempt: a raised exception (network
error or timeout) or an HTTP response carrying a status code. -/
inductive HttpOutcome where
  | raise (msg : String)
  | status (code : Nat)
deriving DecidableEq, Repr

/-- The network as an oracle mapping each request to its outcome. -/
def Net : Type := HttpCall → HttpOutcome

/-- `requests.post`: raises on network error/timeout, otherwise returns
the response status code. -/
def pypost (net : Net) (call : HttpCall) : Except String Nat :=
  match net call with
  | .raise m => .error m
  | .status c => .ok c

/-- `Response.raise_for_status()`: raises exactly for 4xx/5xx codes. -/
def raise_for_status (code : Nat) : Except String Unit :=
  if 400 ≤ code ∧ code < 600 then .error ("HTTPError " ++ toString code)
  else .ok ()

def resendUrl : String := "https://api.resend.com/emails"

def mailgunUrl (domain : String) : String :=
  "https://api.mailgun.net/v3/" ++ domain ++ "/messages"

/-- The post-then-`raise_for_status`-then-`return` sequence that both
provider branches of `send_auto_email` perform verbatim: the calls made
and whether an exception left the sequence. -/
def attempt (net : Net) (call : HttpCall) :
    List HttpCall × Except String Unit :=
  match pypost net call with
  | .error m => ([call], .error m)
  | .ok code =>
    match raise_for_status code with
    | .error m => ([call], .error m)
    | .ok _ => ([call], .ok ())

/-- The display sender `f"A Plus Charge <{from_email}>"`, with
`FROM_EMAIL` defaulting to the fixed placeholder (main.py line 119). -/
def fromHeader (env : Env) : String :=
  "A Plus Charge <" ++ env.FROM_EMAIL.getD "noreply@apluscharge.com" ++ ">"

/-- The `try:` block of `send_auto_email` (main.py lines 121-151). The
Mailgun branch is reachable only when the Resend branch was not entered,
since that branch leaves the block by `return` or by raising. -/
def send_auto_email_try (to_email subject html : String) (env : Env)
    (net : Net) : List HttpCall × Except String Unit :=
  if truthy env.RESEND_API_KEY then
    attempt net ⟨resendUrl, fromHeader env, to_email, subject, html⟩
  else if truthy env.MAILGUN_API_KEY ∧ truthy env.MAILGUN_DOMAIN then
    attempt net ⟨mailgunUrl (env.MAILGUN_DOMAIN.getD ""), fromHeader env,
      to_email, subject, html⟩
  else ([], .ok ())

/-- `send_auto_email` (main.py lines 114-154): the `try:` block with every
exception absorbed by `except Exception: pass`. The first component is
the calls attempted, the second the exceptional behavior of the whole
function. -/
def send_auto_email (to_email subject html : String) (env : Env)
    (net : Net) : List HttpCall × Except String Unit :=
  let r := send_auto_email_try to_email subject html env net
  (r.1, match r.2 with
        | .error _ => .ok ()
        | .ok _ => .ok ())

/-! ## Lead capture (`LeadIn`, `create_lead`, main.py lines 54-111) -/

/-- The validated lead model `LeadIn` (main.py lines 54-66): pydantic
requires `name` (any string) and `email` (a valid address); all other
fields are optional, `country` and `source` carrying defaults. -/
structure LeadIn where
  name : String
  email : String
  phone : Option String
  company : Option String
  message : Option String
  city : Option String
  state : Option String
  country : Option String
  source : Option String
  utm_source : Option String
  utm_medium : Option String
  utm_campaign : Option String
deriving DecidableEq, Repr

/-- A raw `POST /api/leads` JSON payload before validation: each field of
`LeadIn` either supplied (as a string) or absent. -/
structure RawLead where
  name : Option String
  email : Option String
  phone : Option String
  company : Option String
  message : Option String
  city : Option String
  state : Option String
  country : Option String
  source : Option String
  utm_source : Option String
  utm_medium : Option String
  utm_campaign : Option String
deriving DecidableEq, Repr

/-- Split a character list at every occurrence of `c`. -/
def splitOnChar (c : Char) : List Char → List (List Char)
  | [] => [[]]
  | a :: as =>
    let r := splitOnChar c as
    if a == c then [] :: r
    else
      match r with
      | [] => [[a]]
      | g :: gs => (a :: g) :: gs

/-- Modelled from the spec: pydantic's `EmailStr` check that `email`
"must be a syntactically valid email address" — the validator library is
outside the repository's sources. We model the syntactic core: exactly
one `@` separating a nonempty local part from a nonempty domain that
contains a dot and neither starts nor ends with one. -/
def isValidEmail (s : String) : Bool :=
  match splitOnChar '@' s.data with
  | [localPart, domain] =>
    !localPart.isEmpty && !domain.isEmpty && domain.contains '.' &&
      domain.head? != some '.' && domain.getLast? != some '.'
  | _ => false

/-- Pydantic validation of the inbound payload against `LeadIn`
(main.py lines 54-66), run by FastAPI before the handler: `name` must be
present (the empty string is a `str` and passes), `email` must be present
and a valid address; missing/invalid fields are reported by name in a
422 response. -/
def validate_lead (r : RawLead) : Except (List String) LeadIn :=
  match r.name, r.email with
  | some n, some e =>
    if isValidEmail e then
      .ok { name := n, email := e, phone := r.phone, company := r.company
            message := r.message, city := r.city, state := r.state
            country := some (r.country.getD "India")
            source := some (r.source.getD "website")
            utm_source := r.utm_source, utm_medium := r.utm_medium
            utm_campaign := r.utm_campaign }
    else .error ["email"]
  | none, some e => if isValidEmail e then .error ["name"]
                    else .error ["name", "email"]
  | some _, none => .error ["email"]
  | none, none => .error ["name", "email"]

/-- The confirmation-email HTML (main.py lines 83-96), the f-string's
indentation normalized to single line breaks. Phone and company lines
are guarded by Python truthiness of the field; the City/State item's
f-string carries no condition and is emitted for every lead. -/
def html_body (lead : LeadIn) : String :=
  "\n<div style='font-family:Inter,Arial,sans-serif'>\n<h2>Hi " ++
  lead.name ++
  ",</h2>\n<p>Thanks for reaching out to A Plus Charge. Our team will get back to you shortly.</p>\n<p><strong>Summary:</strong></p>\n<ul>\n<li>Email: " ++
  lead.email ++
  "</li>\n" ++
  (if truthy lead.phone
   then "<li>Phone: " ++ lead.phone.getD "" ++ "</li>" else "") ++
  "\n" ++
  (if truthy lead.company
   then "<li>Company: " ++ lead.company.getD "" ++ "</li>" else "") ++
  "\n" ++
  "<li>City/State: " ++ lead.city.getD "" ++ " " ++ lead.state.getD "" ++
  "</li>" ++
  "\n</ul>\n<p>Regards,<br/>A Plus Charge Team</p>\n</div>\n"

/-- `lead.model_dump()` as interpolated into the internal notification
(main.py line 106); the precise dictionary formatting is immaterial to
every claim, so the derived `Repr` rendering stands in for it. -/
def leadDump (lead : LeadIn) : String := reprStr lead

/-- Body of the internal notification email (main.py line 106). -/
def notifyHtml (lead : LeadIn) : String :=
  "New website lead:<br/><pre>" ++ leadDump lead ++ "</pre>"

/-- Observable result of `POST /api/leads`: success body, a 422 from the
validation layer, or a 500 `HTTPException`. -/
inductive ApiResult where
  | success (id : String)
  | validationError (fields : List String)
  | serverError (detail : String)
deriving DecidableEq, Repr

/-- Side effects performed while handling a lead: document-store writes
and outbound HTTP email requests. -/
structure Effects where
  writes : List LeadIn
  emails : List HttpCall
deriving DecidableEq, Repr

/-- The `try:` block of `create_lead` (main.py lines 77-109): persist via
`create_document` (whose outcome the `store` oracle supplies), then send
the confirmation email and, when `NOTIFY_EMAIL` is truthy, the internal
notification. Returns the block's outcome (normal value or escaped
exception) together with the effects performed. -/
def create_lead_try (lead : LeadIn) (store : Except String String)
    (env : Env) (net : Net) : Except String ApiResult × Effects :=
  match store with
  | .error e => (.error e, { writes := [], emails := [] })
  | .ok lead_id =>
    let subject := "Thanks for contacting A Plus Charge"
    let conf := send_auto_email lead.email subject (html_body lead) env net
    match conf.2 with
    | .error e => (.error e, { writes := [lead], emails := conf.1 })
    | .ok _ =>
      let notif :=
        if truthy env.NOTIFY_EMAIL then
          send_auto_email (env.NOTIFY_EMAIL.getD "")
            ("New Lead: " ++ lead.name) (notifyHtml lead) env net
        else ([], .ok ())
      match notif.2 with
      | .error e => (.error e, { writes := [lead], emails := conf.1 ++ notif.1 })
      | .ok _ =>
        (.ok (.success lead_id), { writes := [lead], emails := conf.1 ++ notif.1 })

/-- Handler of `POST /api/leads` on a validated lead (main.py lines
68-111): the `try:` block with any escaped exception converted by the
`except` clause into `HTTPException(500, str(e))`. -/
def create_lead (lead : LeadIn) (store : Except String String) (env : Env)
    (net : Net) : ApiResult × Effects :=
  match create_lead_try lead store env net with
  | (.ok r, eff) => (r, eff)
  | (.error e, eff) => (.serverError e, eff)

/-- The full `POST /api/leads` boundary: FastAPI validates the raw payload
against `LeadIn` before the handler runs; a validation failure yields the
422 with no handler execution and hence no side effect. -/
def post_api_leads (r : RawLead) (store : Except String String) (env : Env)
    (net : Net) : ApiResult × Effects :=
  match validate_lead r with
  | .error fields => (.validationError fields, { writes := [], emails := [] })
  | .ok lead => create_lead lead store env net

/-- `x` occurs as a contiguous substring of `h`. -/
def occursIn (x h : String) : Prop := ∃ a b : String, h = a ++ x ++ b

instance (x h : String) : Decidable (occursIn x h) :=
  decidable_of_iff (x.data <:+: h.data)
    (by
      constructor
      · rintro ⟨s, t, hst⟩
        refine ⟨⟨s⟩, ⟨t⟩, ?_⟩
        cases h with
        | mk l => simp_all [String.ext_iff]
      · rintro ⟨a, b, rfl⟩
        exact ⟨a.data, b.data, by simp⟩)

/-! ## Diagnostics endpoint (`test_database`, main.py lines 24-52) -/

/-- A field value of the `/test` response as the handler builds it:
a string, a list of collection names, or Python's `None`. -/
inductive JVal where
  | null
  | str (s : String)
  | arr (xs : List String)
deriving DecidableEq, Repr

/-- Whether a `/test` field value is a string or a list of strings. -/
def JVal.isStringOrList : JVal → Bool
  | .null => false
  | .str _ => true
  | .arr _ => true

/-- Length of the collection list carried by a `/test` field (0 otherwise). -/
def JVal.arrLen : JVal → Nat
  | .arr xs => xs.length
  | _ => 0

/-- Modelled from the spec: the Document Store handle (`db` in the
`database` module, whose sources are not in the repository snapshot).
`name` is the optional name attribute read by `getattr`;
`list_collection_names` either returns the collection names or raises. -/
structure DBHandle where
  name : Option String
  list_collection_names : Except String (List String)

/-- Modelled from the spec: outcome of `from database import db` inside
the handler — the import raises, or yields a handle that may be `None`. -/
inductive ImportDB where
  | raise (msg : String)
  | ok (db : Option DBHandle)

/-- The six-field response of `GET /test` (main.py lines 27-34). -/
structure TestResponse where
  backend : JVal
  database : JVal
  database_url : JVal
  database_name : JVal
  connection_status : JVal
  collections : JVal
deriving DecidableEq, Repr

/-- Python string slicing `s[:n]`: the first `n` characters. -/
def pytrunc (s : String) (n : Nat) : String := ⟨s.data.take n⟩

/-- Handler of `GET /test` (main.py lines 24-52): starts from the default
response dictionary and mutates it step by step; every failure of the
store collaborator is caught and rendered into the `database` field with
the exception text truncated to 80 characters. -/
def test_database (env : Env) (imp : ImportDB) : TestResponse :=
  let r0 : TestResponse :=
    { backend := .str "✅ Running"
      database := .str "❌ Not Available"
      database_url := .null
      database_name := .null
      connection_status := .str "Not Connected"
      collections := .arr [] }
  match imp with
  | .raise e => { r0 with database := .str ("❌ Error: " ++ pytrunc e 80) }
  | .ok none => { r0 with database := .str "⚠️ Available but not initialized" }
  | .ok (some db) =>
    let r1 := { r0 with
      database := JVal.str "✅ Available"
      database_url :=
        JVal.str (if truthy env.DATABASE_URL then "✅ Set" else "❌ Not Set")
      database_name := JVal.str
        (match db.name with
         | some n => if n.isEmpty then "✅ Connected" else n
         | none => "✅ Connected")
      connection_status := JVal.str "Connected" }
    match db.list_collection_names with
    | .ok cols =>
      { r1 with collections := JVal.arr (cols.take 10)
                database := JVal.str "✅ Connected & Working" }
    | .error e =>
      { r1 with database := JVal.str ("⚠️ Connected but Error: " ++ pytrunc e 80) }

/-- Closed form of the handler: it always succeeds and returns the rounded
revenue, cost and profit, with payback present exactly on the source's
unrounded guard. -/
theorem calculate_roi_eq (p : ROICalcIn) :
    calculate_roi p = Except.ok
      { monthly_revenue := round2 (p.daily_sessions * 30 *
          p.avg_kwh_per_session * p.tariff_per_kwh)
        monthly_cost := round2 (p.daily_sessions * 30 *
          p.avg_kwh_per_session * p.cost_per_kwh + p.opex_per_month)
        monthly_profit := round2 (roiProfit p)
        payback_months :=
          if roiProfit p > 0 ∧ p.station_cost > 0 then
            some (round2 (p.station_cost / roiProfit p))
          else none } := by
  unfold calculate_roi pydiv roiProfit
  by_cases h : (p.daily_sessions * 30 * p.avg_kwh_per_session *
      p.tariff_per_kwh -
      (p.daily_sessions * 30 * p.avg_kwh_per_session * p.cost_per_kwh +
        p.opex_per_month) > 0 ∧ p.station_cost > 0)
  · have hne : ¬ (p.daily_sessions * 30 * p.avg_kwh_per_session *
        p.tariff_per_kwh -
        (p.daily_sessions * 30 * p.avg_kwh_per_session * p.cost_per_kwh +
          p.opex_per_month) = 0) := ne_of_gt h.1
    rw [if_pos h, if_pos h, if_neg hne]
    rfl
  · rw [if_neg h, if_neg h]
    rfl

/-- C1: for every ROI input, `POST /api/roi` returns
`monthly_revenue = round(daily_sessions*30*avg_kwh_per_session*tariff_per_kwh, 2)`,
`monthly_cost = round(daily_sessions*30*avg_kwh_per_session*cost_per_kwh + opex_per_month, 2)`
and `monthly_profit = round(revenue - (energy_cost + opex_per_month), 2)`,
rounding applied to the unrounded intermediates; and on input
(10, 20, 10, 6, 100000, 0) it returns revenue 60000, cost 36000,
profit 24000 and payback 4.17. -/
theorem roi_output_formulas :
    (∀ p : ROICalcIn,
      (calculate_roi p).map ROICalcOut.monthly_revenue =
        Except.ok (round2 (p.daily_sessions * 30 * p.avg_kwh_per_session *
          p.tariff_per_kwh)) ∧
      (calculate_roi p).map ROICalcOut.monthly_cost =
        Except.ok (round2 (p.daily_sessions * 30 * p.avg_kwh_per_session *
          p.cost_per_kwh + p.opex_per_month)) ∧
      (calculate_roi p).map ROICalcOut.monthly_profit =
        Except.ok (round2 (p.daily_sessions * 30 * p.avg_kwh_per_session *
          p.tariff_per_kwh -
          (p.daily_sessions * 30 * p.avg_kwh_per_session * p.cost_per_kwh +
            p.opex_per_month)))) ∧
    calculate_roi ⟨10, 20, 10, 6, 100000, 0⟩ =
      Except.ok ⟨60000, 36000, 24000, some (417/100)⟩ := by
  constructor
  · intro p
    rw [calculate_roi_eq]
    exact ⟨rfl, rfl, rfl⟩
  · rw [calculate_roi_eq]
    norm_num [roiProfit, round2, round_eq]

/-- C3: the ROI handler succeeds on every input, zero and negative values
included: the division is only evaluated when the unrounded profit is
positive, so the `ZeroDivisionError` path of `pydiv` is unreachable. -/
theorem roi_no_error (p : ROICalcIn) :
    ∃ out, calculate_roi p = Except.ok out := by
  exact ⟨_, calculate_roi_eq p⟩

/-- C2 counterexample: on input (1, 1, 1.0001, 1, 1, 0) the unrounded
profit is 0.003, so payback_months is present (333.33) while the returned
monthly_profit rounds to 0, which is not positive — refuting
"payback present iff returned monthly_profit > 0 and station_cost > 0". -/
theorem roi_payback_rounded_cex :
    (calculate_roi ⟨1, 1, 10001/10000, 1, 1, 0⟩).map
        (fun out => (out.payback_months, out.monthly_profit)) =
      Except.ok (some (33333/100), 0) := by
  rw [calculate_roi_eq]
  norm_num [roiProfit, round2, round_eq]
  rfl

/-- C2 amended: payback_months is present iff the UNROUNDED monthly profit
is positive and station_cost is positive, and then equals
`round(station_cost / profit, 2)`. -/
theorem roi_payback_presence (p : ROICalcIn) (out : ROICalcOut)
    (h : calculate_roi p = Except.ok out) :
    out.payback_months =
      (if 0 < roiProfit p ∧ 0 < p.station_cost
       then some (round2 (p.station_cost / roiProfit p)) else none) := by
  rw [calculate_roi_eq] at h
  injection h with h
  rw [← h]

/-- Witness for C2 amended at the all-zero input, where the profit guard
fails and payback is absent. -/
theorem roi_payback_presence_witness :
    (⟨0, 0, 0, (none : Option ℚ)⟩ : ROICalcOut).payback_months =
      (if 0 < roiProfit ⟨0, 0, 0, 0, 0, 0⟩ ∧
          0 < (⟨0, 0, 0, 0, 0, 0⟩ : ROICalcIn).station_cost
       then some (round2 ((⟨0, 0, 0, 0, 0, 0⟩ : ROICalcIn).station_cost /
         roiProfit ⟨0, 0, 0, 0, 0, 0⟩)) else none) :=
  roi_payback_presence ⟨0, 0, 0, 0, 0, 0⟩ ⟨0, 0, 0, none⟩
    (by simp [calculate_roi_eq, roiProfit, round2])

theorem attempt_calls (net : Net) (call : HttpCall) :
    (attempt net call).1 = [call] := by
  unfold attempt
  rcases pypost net call with m | code
  · rfl
  · rcases h : raise_for_status code with m | u <;> simp [h]

/-- The `except Exception: pass` of `send_auto_email` absorbs every
exception: the function's own exceptional behavior is always normal. -/
theorem send_auto_email_snd (to_email subject html : String) (env : Env)
    (net : Net) :
    (send_auto_email to_email subject html env net).2 = Except.ok () := by
  unfold send_auto_email
  dsimp only
  split <;> rfl

/-- With a truthy Resend key, the only request issued is the Resend one. -/
theorem send_calls_resend (to_email subject html : String) (env : Env)
    (net : Net) (hres : truthy env.RESEND_API_KEY = true) :
    (send_auto_email to_email subject html env net).1 =
      [⟨resendUrl, fromHeader env, to_email, subject, html⟩] := by
  unfold send_auto_email send_auto_email_try
  rw [if_pos hres]
  simp [attempt_calls]

/-- Without a Resend key but with truthy Mailgun credentials, the only
request issued is the Mailgun one. -/
theorem send_calls_mailgun (to_email subject html : String) (env : Env)
    (net : Net) (hres : truthy env.RESEND_API_KEY = false)
    (hk : truthy env.MAILGUN_API_KEY = true)
    (hd : truthy env.MAILGUN_DOMAIN = true) :
    (send_auto_email to_email subject html env net).1 =
      [⟨mailgunUrl (env.MAILGUN_DOMAIN.getD ""), fromHeader env, to_email,
        subject, html⟩] := by
  unfold send_auto_email send_auto_email_try
  rw [if_neg (by simp [hres]), if_pos (by simp [hk, hd])]
  simp [attempt_calls]

/-- With no provider fully configured, the dispatcher is a no-op. -/
theorem send_calls_none (to_email subject html : String) (env : Env)
    (net : Net) (hres : truthy env.RESEND_API_KEY = false)
    (hmg : truthy env.MAILGUN_API_KEY = false ∨
      truthy env.MAILGUN_DOMAIN = false) :
    send_auto_email to_email subject html env net = ([], Except.ok ()) := by
  unfold send_auto_email send_auto_email_try
  rw [if_neg (by simp [hres])]
  rw [if_neg (by rcases hmg with h | h <;> simp [h])]

/-- C6: `send_auto_email` returns normally for every recipient, subject,
HTML body, configuration and network outcome; and with neither a Resend
key nor complete Mailgun credentials configured it performs no network
call at all. -/
theorem send_never_raises_and_unconfigured_noop :
    (∀ to_email subject html env net,
      (send_auto_email to_email subject html env net).2 = Except.ok ()) ∧
    (∀ to_email subject html env net,
      truthy env.RESEND_API_KEY = false →
      (truthy env.MAILGUN_API_KEY = false ∨
        truthy env.MAILGUN_DOMAIN = false) →
      send_auto_email to_email subject html env net = ([], Except.ok ())) :=
  ⟨send_auto_email_snd, send_calls_none⟩

/-- Witness for C6 at the empty environment and an always-failing network. -/
theorem send_never_raises_and_unconfigured_noop_witness :
    send_auto_email "a@b.com" "s" "<p>h</p>" Env.empty
        (fun _ => HttpOutcome.raise "boom") = ([], Except.ok ()) :=
  send_never_raises_and_unconfigured_noop.2 "a@b.com" "s" "<p>h</p>"
    Env.empty (fun _ => HttpOutcome.raise "boom") rfl (Or.inl rfl)

/-- C7: provider selection is by configuration only, in a fixed priority
order: a truthy Resend key means exactly one request to the Resend
endpoint (never Mailgun); otherwise truthy Mailgun key and domain mean
exactly one request to the Mailgun endpoint; otherwise no request. -/
theorem send_provider_priority (to_email subject html : String) (env : Env)
    (net : Net) :
    (truthy env.RESEND_API_KEY = true →
      (send_auto_email to_email subject html env net).1.map HttpCall.url =
        [resendUrl]) ∧
    (truthy env.RESEND_API_KEY = false →
      truthy env.MAILGUN_API_KEY = true →
      truthy env.MAILGUN_DOMAIN = true →
      (send_auto_email to_email subject html env net).1.map HttpCall.url =
        [mailgunUrl (env.MAILGUN_DOMAIN.getD "")]) ∧
    (truthy env.RESEND_API_KEY = false →
      (truthy env.MAILGUN_API_KEY = false ∨
        truthy env.MAILGUN_DOMAIN = false) →
      (send_auto_email to_email subject html env net).1 = []) := by
  refine ⟨?_, ?_, ?_⟩
  · intro hres
    rw [send_calls_resend to_email subject html env net hres]
    rfl
  · intro hres hk hd
    rw [send_calls_mailgun to_email subject html env net hres hk hd]
    rfl
  · intro hres hmg
    rw [send_calls_none to_email subject html env net hres hmg]

/-- Witness for C7: a configured Resend key yields exactly the Resend call. -/
theorem send_provider_priority_witness :
    (send_auto_email "a@b.com" "s" "<p>h</p>"
        ⟨some "rk", none, none, none, none, none⟩
        (fun _ => HttpOutcome.status 200)).1.map HttpCall.url =
      [resendUrl] :=
  (send_provider_priority "a@b.com" "s" "<p>h</p>"
      ⟨some "rk", none, none, none, none, none⟩
      (fun _ => HttpOutcome.status 200)).1 rfl

/-- C10: with a truthy Resend key, the dispatcher issues exactly the one
Resend request and returns normally, for every network outcome and even
when Mailgun credentials are also configured: no failure-driven fallback. -/
theorem send_no_fallback (to_email subject html : String) (env : Env)
    (net : Net) (hres : truthy env.RESEND_API_KEY = true) :
    (send_auto_email to_email subject html env net).1.map HttpCall.url =
      [resendUrl] ∧
    (send_auto_email to_email subject html env net).2 = Except.ok () := by
  rw [send_calls_resend to_email subject html env net hres,
    send_auto_email_snd to_email subject html env net]
  exact ⟨rfl, rfl⟩

/-- Witness for C10: Resend and Mailgun both configured, the network
failing every request — only the Resend endpoint is contacted and the
function still returns normally. -/
theorem send_no_fallback_witness :
    (send_auto_email "a@b.com" "s" "<p>h</p>"
        ⟨some "rk", some "mk", some "mg.example", none, none, none⟩
        (fun _ => HttpOutcome.raise "timeout")).1.map HttpCall.url =
      [resendUrl] ∧
    (send_auto_email "a@b.com" "s" "<p>h</p>"
        ⟨some "rk", some "mk", some "mg.example", none, none, none⟩
        (fun _ => HttpOutcome.raise "timeout")).2 = Except.ok () :=
  send_no_fallback "a@b.com" "s" "<p>h</p>"
    ⟨some "rk", some "mk", some "mg.example", none, none, none⟩
    (fun _ => HttpOutcome.raise "timeout") rfl

theorem create_lead_ok (lead : LeadIn) (lead_id : String) (env : Env)
    (net : Net) :
    create_lead lead (Except.ok lead_id) env net =
      (ApiResult.success lead_id,
        { writes := [lead]
          emails := (send_auto_email lead.email
              "Thanks for contacting A Plus Charge" (html_body lead) env
              net).1 ++
            (if truthy env.NOTIFY_EMAIL then
              (send_auto_email (env.NOTIFY_EMAIL.getD "")
                ("New Lead: " ++ lead.name) (notifyHtml lead) env net).1
             else []) }) := by
  unfold create_lead create_lead_try
  dsimp only
  rw [send_auto_email_snd]
  by_cases h : truthy env.NOTIFY_EMAIL = true
  · rw [if_pos h, if_pos h, send_auto_email_snd]
  · rw [if_neg h, if_neg h]

theorem create_lead_error (lead : LeadIn) (e : String) (env : Env)
    (net : Net) :
    create_lead lead (Except.error e) env net =
      (ApiResult.serverError e, { writes := [], emails := [] }) := rfl

/-- C5: the response of `POST /api/leads` on a valid lead is decided by
the persistence outcome alone: a successful write yields the success body
with the generated id, a raised write yields the 500 with the exception's
text, and neither the email configuration nor any network outcome can
change the response. -/
theorem lead_result_store_only (lead : LeadIn)
    (store : Except String String) (env env2 : Env) (net net2 : Net) :
    (∀ lead_id, store = Except.ok lead_id →
      (create_lead lead store env net).1 = ApiResult.success lead_id) ∧
    (∀ e, store = Except.error e →
      (create_lead lead store env net).1 = ApiResult.serverError e) ∧
    (create_lead lead store env net).1 =
      (create_lead lead store env2 net2).1 := by
  refine ⟨?_, ?_, ?_⟩
  · rintro lead_id rfl
    rw [create_lead_ok]
  · rintro e rfl
    rw [create_lead_error]
  · cases store with
    | ok lead_id => rw [create_lead_ok, create_lead_ok]
    | error e => rw [create_lead_error, create_lead_error]

/-- Witness for C5: a successful write returns the generated id even with
no email provider configured and a failing network. -/
theorem lead_result_store_only_witness :
    (create_lead
        ⟨"Jo", "a@b.com", none, none, none, none, none, some "India",
          some "website", none, none, none⟩
        (Except.ok "id1") Env.empty (fun _ => HttpOutcome.raise "x")).1 =
      ApiResult.success "id1" :=
  (lead_result_store_only
      ⟨"Jo", "a@b.com", none, none, none, none, none, some "India",
        some "website", none, none, none⟩
      (Except.ok "id1") Env.empty Env.empty
      (fun _ => HttpOutcome.raise "x") (fun _ => HttpOutcome.raise "x")).1
    "id1" rfl

/-- C4 counterexample: a payload with an EMPTY name and a valid email
passes pydantic validation (`name: str` accepts `""`), so the handler
runs, the lead is persisted and the success body is returned — refuting
"name missing or empty yields a 422 with no side effect". -/
theorem lead_empty_name_cex :
    post_api_leads
        ⟨some "", some "a@b.com", none, none, none, none, none, none,
          none, none, none, none⟩
        (Except.ok "id1") Env.empty (fun _ => HttpOutcome.status 200) =
      (ApiResult.success "id1",
        { writes := [⟨"", "a@b.com", none, none, none, none, none,
            some "India", some "website", none, none, none⟩]
          emails := [] }) := by decide

/-- C4 amended: a payload with a MISSING name, or a missing or
syntactically invalid email, is rejected by the validation layer with a
nonempty field-error list before the handler runs: no document-store
write and no email request is performed. (An empty-but-present name
passes validation.) -/
theorem lead_validation_guard (r : RawLead) (store : Except String String)
    (env : Env) (net : Net)
    (h : r.name = none ∨ r.email = none ∨
      ∃ e, r.email = some e ∧ isValidEmail e = false) :
    ∃ fields, fields ≠ [] ∧
      post_api_leads r store env net =
        (ApiResult.validationError fields,
          { writes := [], emails := [] }) := by
  rcases hn : r.name with _ | n <;> rcases he : r.email with _ | e
  · exact ⟨["name", "email"], by simp,
      by simp [post_api_leads, validate_lead, hn, he]⟩
  · by_cases hv : isValidEmail e = true
    · exact ⟨["name"], by simp,
        by simp [post_api_leads, validate_lead, hn, he, hv]⟩
    · exact ⟨["name", "email"], by simp,
        by simp [post_api_leads, validate_lead, hn, he, hv]⟩
  · exact ⟨["email"], by simp,
      by simp [post_api_leads, validate_lead, hn, he]⟩
  · rcases h with h | h | ⟨e', he', hv⟩
    · rw [hn] at h
      cases h
    · rw [he] at h
      cases h
    · rw [he] at he'
      injection he' with he''
      subst he''
      exact ⟨["email"], by simp,
        by simp [post_api_leads, validate_lead, hn, he, hv]⟩

/-- Witness for C4 amended: an email without an `@` is rejected with no
side effect. -/
theorem lead_validation_guard_witness :
    ∃ fields, fields ≠ [] ∧
      post_api_leads
          ⟨some "Jo", some "not-an-email", none, none, none, none, none,
            none, none, none, none, none⟩
          (Except.ok "id1") Env.empty (fun _ => HttpOutcome.status 200) =
        (ApiResult.validationError fields,
          { writes := [], emails := [] }) :=
  lead_validation_guard
    ⟨some "Jo", some "not-an-email", none, none, none, none, none, none,
      none, none, none, none⟩
    (Except.ok "id1") Env.empty (fun _ => HttpOutcome.status 200)
    (Or.inr (Or.inr ⟨"not-an-email", rfl, by decide⟩))

theorem truthy_none : truthy none = false := rfl

theorem occursIn_appendL (x h t : String) (hx : occursIn x h) :
    occursIn x (h ++ t) := by
  rcases hx with ⟨a, b, rfl⟩
  exact ⟨a, b ++ t, by simp [String.append_assoc]⟩

theorem occursIn_appendR (x h t : String) (hx : occursIn x t) :
    occursIn x (h ++ t) := by
  rcases hx with ⟨a, b, rfl⟩
  exact ⟨h ++ a, b, by simp [String.append_assoc]⟩

theorem occursIn_refl (x : String) : occursIn x x :=
  ⟨"", "", by simp⟩

set_option maxRecDepth 4000 in
/-- C9 counterexample: for a lead with neither city nor state set, the
confirmation HTML still contains the City/State line (its f-string at
main.py line 92 carries no condition, unlike the phone and company
lines) — refuting "the City/State line is embedded only when city or
state is set". -/
theorem html_city_line_cex :
    occursIn "<li>City/State: "
      (html_body ⟨"Jo", "a@b.com", none, none, none, none, none,
        some "India", some "website", none, none, none⟩) := by decide

/-- C9 amended: the confirmation HTML embeds the lead's name and email
unconditionally; the phone line appears when phone is truthy and the body
does not depend on a falsy phone, likewise for company; the City/State
line is embedded for every lead, its slots empty when city or state is
unset. -/
theorem lead_confirmation_html (lead : LeadIn) :
    occursIn lead.name (html_body lead) ∧
    occursIn lead.email (html_body lead) ∧
    (truthy lead.phone = true →
      occursIn ("<li>Phone: " ++ lead.phone.getD "" ++ "</li>")
        (html_body lead)) ∧
    (truthy lead.phone = false →
      html_body lead = html_body { lead with phone := none }) ∧
    (truthy lead.company = true →
      occursIn ("<li>Company: " ++ lead.company.getD "" ++ "</li>")
        (html_body lead)) ∧
    (truthy lead.company = false →
      html_body lead = html_body { lead with company := none }) ∧
    occursIn ("<li>City/State: " ++ lead.city.getD "" ++ " " ++
      lead.state.getD "" ++ "</li>") (html_body lead) := by
  refine ⟨?_, ?_, ?_, ?_, ?_, ?_, ?_⟩
  · unfold html_body
    repeat
      first
      | exact occursIn_appendR _ _ _ (occursIn_refl _)
      | apply occursIn_appendL
  · unfold html_body
    repeat
      first
      | exact occursIn_appendR _ _ _ (occursIn_refl _)
      | apply occursIn_appendL
  · intro hp
    unfold html_body
    rw [if_pos hp]
    repeat
      first
      | exact occursIn_appendR _ _ _ (occursIn_refl _)
      | apply occursIn_appendL
  · intro hp
    simp [html_body, hp, truthy_none]
  · intro hc
    unfold html_body
    rw [if_pos hc]
    repeat
      first
      | exact occursIn_appendR _ _ _ (occursIn_refl _)
      | apply occursIn_appendL
  · intro hc
    simp [html_body, hc, truthy_none]
  · refine ⟨"\n<div style='font-family:Inter,Arial,sans-serif'>\n<h2>Hi " ++
      lead.name ++
      ",</h2>\n<p>Thanks for reaching out to A Plus Charge. Our team will get back to you shortly.</p>\n<p><strong>Summary:</strong></p>\n<ul>\n<li>Email: " ++
      lead.email ++ "</li>\n" ++
      (if truthy lead.phone
       then "<li>Phone: " ++ lead.phone.getD "" ++ "</li>" else "") ++
      "\n" ++
      (if truthy lead.company
       then "<li>Company: " ++ lead.company.getD "" ++ "</li>" else "") ++
      "\n",
      "\n</ul>\n<p>Regards,<br/>A Plus Charge Team</p>\n</div>\n", ?_⟩
    simp only [html_body, String.append_assoc]

/-- Witness for C9 amended at a lead with phone and company set. -/
theorem lead_confirmation_html_witness :
    occursIn "<li>Phone: 123</li>"
      (html_body ⟨"Jo", "a@b.com", some "123", some "ACME", none, none,
        none, some "India", some "website", none, none, none⟩) ∧
    occursIn "<li>Company: ACME</li>"
      (html_body ⟨"Jo", "a@b.com", some "123", some "ACME", none, none,
        none, some "India", some "website", none, none, none⟩) :=
  ⟨(lead_confirmation_html
      ⟨"Jo", "a@b.com", some "123", some "ACME", none, none, none,
        some "India", some "website", none, none, none⟩).2.2.1 rfl,
    (lead_confirmation_html
      ⟨"Jo", "a@b.com", some "123", some "ACME", none, none, none,
        some "India", some "website", none, none, none⟩).2.2.2.2.1 rfl⟩

theorem pytrunc_length (s : String) (n : Nat) : (pytrunc s n).length ≤ n := by
  show (s.data.take n).length ≤ n
  rw [List.length_take]
  exact Nat.min_le_left n s.data.length

/-- C8 counterexample: when the store handle exists but is `None`, the
handler leaves `database_url` (and `database_name`) at their initial
`None`, so not every field of the `/test` response is a string or a list
of strings — refuting that part of the claim. -/
theorem test_null_field_cex :
    JVal.isStringOrList
      (test_database Env.empty (ImportDB.ok none)).database_url = false := rfl

/-- C8 amended: `GET /test` never raises and always returns all six
fields; `backend`, `database`, `connection_status` and `collections` are
always strings or a list, while `database_url` and `database_name` are
strings whenever the store handle exists (and remain null otherwise); a
failing import or collection listing is rendered into the `database`
field with the exception text truncated to 80 characters; at most 10
collection names are listed. -/
theorem test_endpoint_fields (env : Env) (imp : ImportDB) :
    (test_database env imp).backend = JVal.str "✅ Running" ∧
    JVal.isStringOrList (test_database env imp).database = true ∧
    JVal.isStringOrList (test_database env imp).connection_status = true ∧
    JVal.isStringOrList (test_database env imp).collections = true ∧
    (∀ db, imp = ImportDB.ok (some db) →
      JVal.isStringOrList (test_database env imp).database_url = true ∧
      JVal.isStringOrList (test_database env imp).database_name = true) ∧
    (∀ e, imp = ImportDB.raise e →
      (test_database env imp).database =
        JVal.str ("❌ Error: " ++ pytrunc e 80)) ∧
    (∀ db e, imp = ImportDB.ok (some db) →
      db.list_collection_names = Except.error e →
      (test_database env imp).database =
        JVal.str ("⚠️ Connected but Error: " ++ pytrunc e 80)) ∧
    (∀ s n, (pytrunc s n).length ≤ n) ∧
    (test_database env imp).collections.arrLen ≤ 10 := by
  refine ⟨?_, ?_, ?_, ?_, ?_, ?_, ?_, fun s n => pytrunc_length s n, ?_⟩
  · rcases imp with e | (_ | db) <;>
      simp [test_database] <;>
      rcases h : db.list_collection_names with cols | e <;> simp [h]
  · rcases imp with e | (_ | db) <;>
      simp [test_database, JVal.isStringOrList] <;>
      rcases h : db.list_collection_names with cols | e <;>
      simp [h, JVal.isStringOrList]
  · rcases imp with e | (_ | db) <;>
      simp [test_database, JVal.isStringOrList] <;>
      rcases h : db.list_collection_names with cols | e <;>
      simp [h, JVal.isStringOrList]
  · rcases imp with e | (_ | db) <;>
      simp [test_database, JVal.isStringOrList] <;>
      rcases h : db.list_collection_names with cols | e <;>
      simp [h, JVal.isStringOrList]
  · rintro db rfl
    simp only [test_database]
    rcases h : db.list_collection_names with cols | e <;>
      simp [h, JVal.isStringOrList]
  · rintro e rfl
    simp [test_database]
  · rintro db e rfl h
    simp [test_database, h]
  · rcases imp with e | (_ | db)
    · simp [test_database, JVal.arrLen]
    · simp [test_database, JVal.arrLen]
    · simp only [test_database]
      rcases h : db.list_collection_names with cols | e <;>
        simp [h, JVal.arrLen]

/-- Witness for C8 amended: a raised import renders the truncated error
text into the `database` field. -/
theorem test_endpoint_fields_witness :
    (test_database Env.empty (ImportDB.raise "boom")).database =
      JVal.str ("❌ Error: " ++ pytrunc "boom" 80) :=
  (test_endpoint_fields Env.empty (ImportDB.raise "boom")).2.2.2.2.2.1
    "boom" rfl
